import Mathlib

/-!
# Verification of the Interview-Agent core pipeline

Shallow embedding of the three core components of the repository:

* `AudioStreamHandler` (src/audio_handler.py) — the debounced turn segmenter,
* `GeminiHandler` (src/ai_handler.py) — the gated two-stage dispatcher,
* `GCPBucketListener` (src/gcp_bucket_listener.py) — the polling remote-image watcher,

together with proofs of the spec's testable properties about them.

Conventions of the embedding: Python callbacks become recorded event lists
(an event is recorded exactly when the corresponding callback attribute is
set, mirroring the `if self.cb:` guards in the source); exceptions raised by
external services become `Except` values passed in as the environment of a
run; a Python `try/except` that swallows the exception becomes a total
function returning the fallback result on the `.error` case.
-/

namespace InterviewAgent

/-! ## Python string primitives

Implemented over the character list of a `String` so that they evaluate by
kernel reduction (`decide`/`rfl`); the byte-position-based `String` library
functions do not. -/

/-- Python `str.strip()`: drop leading and trailing whitespace. -/
def pyStrip (s : String) : String :=
  ⟨(((s.toList.dropWhile Char.isWhitespace).reverse.dropWhile
      Char.isWhitespace).reverse)⟩

/-- Python `str.split(sep)` for a one-character separator, on the character
list: always returns at least one (possibly empty) piece. -/
def splitCharList (sep : Char) : List Char → List (List Char)
  | [] => [[]]
  | c :: cs =>
    let r := splitCharList sep cs
    if c = sep then [] :: r
    else
      match r with
      | [] => [[c]]
      | h :: t => (c :: h) :: t

/-- Python `str.split(sep)` for a one-character separator. -/
def pySplit (s : String) (sep : Char) : List String :=
  (splitCharList sep s.toList).map fun l => ⟨l⟩

/-- Python `str.lower()`. -/
def pyLower (s : String) : String :=
  ⟨s.toList.map Char.toLower⟩

/-- Python `str.endswith(suffix)`. -/
def pyEndsWith (s suffix : String) : Bool :=
  decide (List.IsSuffix suffix.toList s.toList)

/-! ## Turn segmenter (src/audio_handler.py)

State of an `AudioStreamHandler` as far as transcript segmentation is
concerned.  `handleLive` says whether the `self.transcript_timer` field
currently references a timer that is armed (started, not yet fired and not
yet cancelled); `liveTimers` counts all armed `threading.Timer` objects
created by the handler that have not fired or been cancelled, so that the
single-timer invariant is a genuine statement about timer objects rather
than being baked into the state representation. -/

structure SegState where
  current_transcript : String
  last_processed_transcript : String
  handleLive : Bool
  liveTimers : Nat
deriving DecidableEq, Repr

/-- Initial state of a fresh `AudioStreamHandler` (`__init__`):
empty transcripts, no timer. -/
def SegState.init : SegState :=
  { current_transcript := ""
    last_processed_transcript := ""
    handleLive := false
    liveTimers := 0 }

/-- `AudioStreamHandler._process_transcript_immediately`: emit the current
transcript via `on_transcript_update` if it is non-empty and differs from the
last processed one, then record it as last processed.  Returns the new state
and the list of emitted transcripts (the `on_transcript_update` calls). -/
def processTranscriptImmediately (s : SegState) : SegState × List String :=
  if s.current_transcript ≠ "" ∧
      s.current_transcript ≠ s.last_processed_transcript then
    ({ s with last_processed_transcript := s.current_transcript },
     [s.current_transcript])
  else
    (s, [])

/-- The `if self.transcript_timer: self.transcript_timer.cancel()` step of
`on_turn`: cancelling the referenced timer kills it when it is still armed
(cancelling an already-fired or already-cancelled timer is a no-op). -/
def cancelPendingTimer (s : SegState) : SegState :=
  if s.handleLive then
    { s with handleLive := false, liveTimers := s.liveTimers - 1 }
  else
    s

/-- `AudioStreamHandler._schedule_transcript_processing`: create and start a
new `threading.Timer` and store it in `self.transcript_timer`. -/
def scheduleTranscriptProcessing (s : SegState) : SegState :=
  { s with handleLive := true, liveTimers := s.liveTimers + 1 }

/-- The `on_turn` callback registered in `start_streaming`: on a non-blank
transcript, store the stripped text, cancel any pending timer, then either
finalize immediately (`end_of_turn`) or arm a fresh debounce timer. -/
def onTurn (s : SegState) (transcript : String) (end_of_turn : Bool) :
    SegState × List String :=
  if pyStrip transcript ≠ "" then
    let s1 := { s with current_transcript := pyStrip transcript }
    let s2 := cancelPendingTimer s1
    if end_of_turn then
      processTranscriptImmediately s2
    else
      (scheduleTranscriptProcessing s2, [])
  else
    (s, [])

/-- Firing of the armed debounce timer: the timer object transitions to
fired (it is no longer armed), then `process_delayed` re-checks that the
current transcript is non-empty and unprocessed before calling
`_process_transcript_immediately`. -/
def fireTimer (s : SegState) : SegState × List String :=
  let s1 := { s with handleLive := false, liveTimers := s.liveTimers - 1 }
  if s1.current_transcript ≠ "" ∧
      s1.current_transcript ≠ s1.last_processed_transcript then
    processTranscriptImmediately s1
  else
    (s1, [])

/-- Events a segmenter run can observe: a `Turn` streaming event with its
transcript text and `end_of_turn` flag, or the firing of the armed debounce
timer. -/
inductive AudioEvent where
  | turn (transcript : String) (end_of_turn : Bool)
  | timerFire
deriving DecidableEq, Repr

/-- One scheduler step.  A `timerFire` can only occur while a timer is
armed; with no armed timer it is a non-event. -/
def segStep (s : SegState) : AudioEvent → SegState × List String
  | .turn t eot => onTurn s t eot
  | .timerFire => if s.liveTimers = 0 then (s, []) else fireTimer s

/-- Run a sequence of events, accumulating all emitted transcripts. -/
def runSeg (s : SegState) : List AudioEvent → SegState × List String
  | [] => (s, [])
  | e :: es =>
    let (s1, out1) := segStep s e
    let (s2, out2) := runSeg s1 es
    (s2, out1 ++ out2)

/-! ## Gated dispatcher (src/ai_handler.py)

`GeminiHandler.process_transcript` and `GeminiHandler.process_image` each
spawn a daemon thread running the body below.  The embedding models one such
body run as a pure function of the handler's configuration at the moment the
body starts (`is_frozen` is read at the start of every run, not at
submission), of the transcript/image argument, and of the outcomes of the
external service calls (`Except`: `.error e` is an exception with message
`e`, `.ok r` is a normal response).  The run result is the pair of the
external service calls actually performed and the sink events actually
emitted, in order. -/

/-- External model-service invocations the dispatcher can perform. -/
inductive ServiceCall where
  | classify (transcript : String)
  | answer (transcript : String)
  | vision (image_path : String)
deriving DecidableEq, Repr

/-- Events emitted to the sink (web UI) via the handler's callbacks. -/
inductive SinkEvent where
  | clearTranscript
  | response (text : String)
  | imageResponse (text : String) (image_path : String)
deriving DecidableEq, Repr

/-- Configuration of a `GeminiHandler` at the moment a dispatch body runs:
the freeze flag, availability of the two models, and which callbacks are
registered (`on_response`, `on_clear_transcription`, `on_image_response`). -/
structure GeminiConfig where
  is_frozen : Bool
  modelAvailable : Bool
  visionModelAvailable : Bool
  on_response : Bool
  on_clear_transcription : Bool
  on_image_response : Bool
deriving DecidableEq, Repr

/-- Python `needle in haystack` for strings: substring containment,
case-sensitive. -/
def pyIn (needle hay : String) : Bool :=
  decide (List.IsInfix needle.toList hay.toList)

/-- `GeminiHandler.process_transcript`'s `_process` body.  `classifyRes` and
`answerRes` are the outcomes of the two `generate_content` calls (the second
is consulted only when the first succeeds and its stripped text contains the
literal token `"Yes"`).  Any exception is caught by the surrounding
`try/except`, which only logs, so the run always returns normally. -/
def processTranscript (cfg : GeminiConfig) (transcript : String)
    (classifyRes answerRes : Except String String) :
    List ServiceCall × List SinkEvent :=
  if cfg.is_frozen then ([], [])
  else if !cfg.modelAvailable then ([], [])
  else
    match classifyRes with
    | .error _ => ([.classify transcript], [])
    | .ok resp =>
      let classification_result := pyStrip resp
      if pyIn "Yes" classification_result then
        let clearEv : List SinkEvent :=
          if cfg.on_clear_transcription then [.clearTranscript] else []
        match answerRes with
        | .error _ => ([.classify transcript, .answer transcript], clearEv)
        | .ok ans =>
          ([.classify transcript, .answer transcript],
           clearEv ++ if cfg.on_response then [.response ans] else [])
      else
        ([.classify transcript], [])

/-- The `f"📸 IMAGE ANALYSIS: ..."` header used by the fallback branch of
`process_image`. -/
def imageHeader (image_path : String) : String :=
  "📸 IMAGE ANALYSIS: " ++ ((pySplit image_path '/').getLastD "") ++ "\n"

/-- `GeminiHandler.process_image`'s `_process_image` body.  `loadRes` is the
outcome of `Image.open` and `visionRes` of the vision `generate_content`
call; an exception from either lands in the `except` clause, which emits
`"Error processing image: ..."` through `on_response` when that callback is
registered. -/
def processImage (cfg : GeminiConfig) (image_path : String)
    (loadRes : Except String Unit) (visionRes : Except String String) :
    List ServiceCall × List SinkEvent :=
  if cfg.is_frozen then ([], [])
  else if !cfg.visionModelAvailable then ([], [])
  else
    match loadRes with
    | .error e =>
      ([], if cfg.on_response
           then [.response ("Error processing image: " ++ e)] else [])
    | .ok _ =>
      match visionRes with
      | .error e =>
        ([.vision image_path],
         if cfg.on_response
         then [.response ("Error processing image: " ++ e)] else [])
      | .ok resp =>
        ([.vision image_path],
         if cfg.on_image_response then [.imageResponse resp image_path]
         else if cfg.on_response then [.response (imageHeader image_path ++ resp)]
         else [])

/-! ## Remote-image watcher (src/gcp_bucket_listener.py)

`GCPBucketListener.check_for_new_pngs` is modelled as a pure function of the
listener state, the blob listing returned by the store this cycle, and
whether the (at most one) download this cycle succeeds.  The whole body sits
in a `try/except` that logs and falls through to `return new_files`, so any
raised step (name parsing, `strptime`, download) yields the empty result
with the state unchanged. -/

/-- A UTC timestamp as produced by
`datetime.strptime(..., "%Y%m%d_%H%M%S").replace(tzinfo=utc)`. -/
structure PyDateTime where
  year : Nat
  month : Nat
  day : Nat
  hour : Nat
  minute : Nat
  second : Nat
deriving DecidableEq, Repr

/-- Order key for comparing two UTC timestamps
(field-lexicographic, packed into one number). -/
def PyDateTime.toKey (t : PyDateTime) : Nat :=
  t.year * 10000000000 + t.month * 100000000 + t.day * 1000000 +
    t.hour * 10000 + t.minute * 100 + t.second

/-- Number of days of a month, Gregorian rules (as `datetime` validates). -/
def daysInMonth (year month : Nat) : Nat :=
  if month = 2 then
    if year % 4 = 0 ∧ (year % 100 ≠ 0 ∨ year % 400 = 0) then 29 else 28
  else if month = 4 ∨ month = 6 ∨ month = 9 ∨ month = 11 then 30
  else 31

/-- Interpret a list of decimal digit characters as a number. -/
def digitsToNat (l : List Char) : Nat :=
  l.foldl (fun a c => a * 10 + (c.toNat - 48)) 0

/-- Value of a decimal digit character. -/
def digitVal (c : Char) : Nat := c.toNat - 48

/-- Value of a two-digit decimal number given by two digit characters. -/
def twoDigitVal (c d : Char) : Nat := digitVal c * 10 + digitVal d

/-- The date half of CPython's `strptime` with format `%Y%m%d_%H%M%S`,
applied to the (all-digit) characters before the underscore.  CPython
compiles `%Y` to exactly four digits and `%m`/`%d` to ordered alternations
preferring the two-digit form (`1[0-2]|0[1-9]|[1-9]` and
`3[01]|[12]\d|0[1-9]|[1-9]`); the literal `_` that follows forces the
date half to consume exactly these characters, with regex backtracking
falling from the two-digit month to the one-digit month when needed.
Hence: six digits parse as one-digit month and day (both nonzero), seven
digits prefer two-digit month (01–12) with nonzero one-digit day and fall
back to nonzero one-digit month with two-digit day (01–31), and eight
digits require two-digit month and day; anything else fails to match. -/
def parseDateYmd (cs : List Char) : Option (Nat × Nat × Nat) :=
  match cs with
  | [y1, y2, y3, y4, m1, d1] =>
    if 1 ≤ digitVal m1 ∧ 1 ≤ digitVal d1 then
      some (digitsToNat [y1, y2, y3, y4], digitVal m1, digitVal d1)
    else none
  | [y1, y2, y3, y4, a, b, c] =>
    if 1 ≤ twoDigitVal a b ∧ twoDigitVal a b ≤ 12 ∧ 1 ≤ digitVal c then
      some (digitsToNat [y1, y2, y3, y4], twoDigitVal a b, digitVal c)
    else if 1 ≤ digitVal a ∧ 1 ≤ twoDigitVal b c ∧ twoDigitVal b c ≤ 31 then
      some (digitsToNat [y1, y2, y3, y4], digitVal a, twoDigitVal b c)
    else none
  | [y1, y2, y3, y4, a, b, c, d] =>
    if 1 ≤ twoDigitVal a b ∧ twoDigitVal a b ≤ 12 ∧
        1 ≤ twoDigitVal c d ∧ twoDigitVal c d ≤ 31 then
      some (digitsToNat [y1, y2, y3, y4], twoDigitVal a b, twoDigitVal c d)
    else none
  | _ => none

/-- The time half of CPython's `strptime` with format `%Y%m%d_%H%M%S`,
applied to the (all-digit) characters after the underscore.  `%H`, `%M`,
`%S` compile to `2[0-3]|[0-1]\d|\d`, `[0-5]\d|\d` and `6[0-1]|[0-5]\d|\d`,
each preferring the two-digit form; the regex engine returns the first
complete match in that backtracking order, and `strptime` then raises
`ValueError` when that match leaves characters unconsumed ("unconverted
data remains"), so a full-length assignment reachable only past an earlier
complete match is never found.  Seconds 60 and 61 still match here and are
rejected later by the `datetime` constructor. -/
def parseTimeHMS (cs : List Char) : Option (Nat × Nat × Nat) :=
  match cs with
  | [a, b, c] => some (digitVal a, digitVal b, digitVal c)
  | [a, b, c, d] =>
    if twoDigitVal a b ≤ 23 then
      some (twoDigitVal a b, digitVal c, digitVal d)
    else if twoDigitVal b c ≤ 59 then
      some (digitVal a, twoDigitVal b c, digitVal d)
    else if twoDigitVal c d ≤ 61 then
      some (digitVal a, digitVal b, twoDigitVal c d)
    else none
  | [a, b, c, d, e] =>
    if twoDigitVal a b ≤ 23 then
      if twoDigitVal c d ≤ 59 then
        some (twoDigitVal a b, twoDigitVal c d, digitVal e)
      else if twoDigitVal d e ≤ 61 then
        some (twoDigitVal a b, digitVal c, twoDigitVal d e)
      else none
    else
      if twoDigitVal b c ≤ 59 ∧ twoDigitVal d e ≤ 61 then
        some (digitVal a, twoDigitVal b c, twoDigitVal d e)
      else none
  | [a, b, c, d, e, f] =>
    if twoDigitVal a b ≤ 23 ∧ twoDigitVal c d ≤ 59 ∧
        twoDigitVal e f ≤ 61 then
      some (twoDigitVal a b, twoDigitVal c d, twoDigitVal e f)
    else none
  | _ => none

/-- `datetime.strptime(s, "%Y%m%d_%H%M%S")`.  The compiled pattern is the
date half, a literal `_`, and the time half, all of whose character classes
are digit classes, so a match must split the string at its unique
underscore into two all-digit runs (two or more underscores can never all
be consumed and zero can never match the literal); the halves parse per
`parseDateYmd`/`parseTimeHMS`, and the resulting values must survive the
`datetime` constructor (year at least 1, day within the month, second at
most 59 — hour and minute are already bounded by their patterns).  Any
failure raises `ValueError` (`none` here). -/
def strptimeYmdHMS (s : String) : Option PyDateTime :=
  match splitCharList '_' s.toList with
  | [dateCs, timeCs] =>
    if dateCs.all Char.isDigit ∧ timeCs.all Char.isDigit then
      match parseDateYmd dateCs, parseTimeHMS timeCs with
      | some (year, month, day), some (hour, minute, second) =>
        if 1 ≤ year ∧ day ≤ daysInMonth year month ∧ second ≤ 59 then
          some ⟨year, month, day, hour, minute, second⟩
        else none
      | _, _ => none
    else none
  | _ => none

/-- A storage blob as the listener sees it: full object name, the
`time_created` metadata (as an order key; `none` when the store reports no
creation time) and the object size. -/
structure Blob where
  name : String
  time_created : Option Nat
  size : Nat
deriving DecidableEq, Repr

/-- Sort key used at line 82 of src/gcp_bucket_listener.py: `time_created`
when present, else `datetime.datetime.min` (smaller than every real
timestamp, here `0`). -/
def blobSortKey (b : Blob) : Nat :=
  b.time_created.getD 0

/-- `blob.name.lower().endswith('.png')`. -/
def isPngName (name : String) : Bool :=
  pyEndsWith (pyLower name) ".png"

/-- One comparison step of the maximum scan below: keep the earlier blob
unless the later one has a strictly larger key. -/
def selStep (acc : Option Blob) (b : Blob) : Option Blob :=
  match acc with
  | none => some b
  | some a => if blobSortKey a < blobSortKey b then some b else some a

/-- The blob `png_blobs[0]` after the stable descending sort by
`blobSortKey`: the first listed blob with the maximal key (stable
`sort(reverse=True)` keeps earlier elements of equal key first). -/
def selectLatest (blobs : List Blob) : Option Blob :=
  blobs.foldl selStep none

/-- `image_name.split('/')[-1]`. -/
def basenameOf (name : String) : String :=
  (pySplit name '/').getLastD ""

/-- Lines 90–91 of src/gcp_bucket_listener.py: rebuild the creation time
from the file name, `image_name.split('_')[1] + '_' +
image_name.split('_')[2][:6]`, then `strptime` it.  `none` models the
`IndexError` (fewer than three `_`-separated segments) or `ValueError`
(malformed stamp) these lines can raise. -/
def createdTimeFromName (image_name : String) : Option PyDateTime :=
  match pySplit image_name '_' with
  | _ :: seg1 :: seg2 :: _ =>
    strptimeYmdHMS ⟨seg1.toList ++ '_' :: seg2.toList.take 6⟩
  | _ => none

/-- The `file_info` dict appended to `new_files` for an ingested object. -/
structure FileInfo where
  name : String
  local_path : String
  size : Nat
deriving DecidableEq, Repr

/-- Listener state: the persisted seen set, the cutoff (`self.start_time`,
already normalised to UTC in `__init__`; `none` when no cutoff was
configured), the download directory, and whether an `on_new_image` callback
is registered. -/
structure ListenerState where
  seen_files : List String
  start_time : Option PyDateTime
  download_dir : String
  hasCallback : Bool
deriving DecidableEq, Repr

/-- Result of one `check_for_new_pngs` cycle: the state after the cycle, the
returned `new_files` list, the names successfully downloaded, and the local
paths handed to the `on_new_image` callback. -/
structure CycleResult where
  state : ListenerState
  new_files : List FileInfo
  downloaded : List String
  callbacks : List String
deriving DecidableEq, Repr

/-- The ingestion tail of the cycle (lines 99–119): download the object,
add its name to `seen_files`, build `file_info`, and invoke `on_new_image`
when registered.  A failing download raises out to the `except` clause
before `seen_files` is touched. -/
def ingestLatest (st : ListenerState) (latest : Blob) (image_name : String)
    (downloadOk : Bool) : CycleResult :=
  let local_path := st.download_dir ++ "/" ++ image_name
  if downloadOk then
    let st' := { st with seen_files := image_name :: st.seen_files }
    { state := st'
      new_files := [⟨image_name, local_path, latest.size⟩]
      downloaded := [image_name]
      callbacks := if st.hasCallback then [local_path] else [] }
  else
    { state := st, new_files := [], downloaded := [], callbacks := [] }

/-- `GCPBucketListener.check_for_new_pngs`, one poll cycle over the listing
`blobs`.  Every early exit (no PNG, parse failure, already seen, older than
cutoff, failed download) returns the empty `new_files` with the state
unchanged. -/
def checkForNewPngs (st : ListenerState) (blobs : List Blob)
    (downloadOk : Bool) : CycleResult :=
  let noop : CycleResult :=
    { state := st, new_files := [], downloaded := [], callbacks := [] }
  let png_blobs := blobs.filter (fun b => isPngName b.name)
  match selectLatest png_blobs with
  | none => noop
  | some latest =>
    let image_name := basenameOf latest.name
    match createdTimeFromName image_name with
    | none => noop
    | some created_time =>
      if st.seen_files.contains image_name then noop
      else
        match st.start_time with
        | some cutoff =>
          if created_time.toKey < cutoff.toKey then noop
          else ingestLatest st latest image_name downloadOk
        | none => ingestLatest st latest image_name downloadOk

/-- `n` consecutive poll cycles against an unchanged store listing,
accumulating all `new_files`. -/
def runCycles (st : ListenerState) (blobs : List Blob) (downloadOk : Bool) :
    Nat → ListenerState × List FileInfo
  | 0 => (st, [])
  | n + 1 =>
    let r := checkForNewPngs st blobs downloadOk
    let (st', files) := runCycles r.state blobs downloadOk n
    (st', r.new_files ++ files)

/-! ## Theorems -/

/-- The single-timer invariant as a state predicate: the `liveTimers` count
is fully determined by whether `self.transcript_timer` references an armed
timer, so there is never a second armed timer beyond the referenced one. -/
def segInv (s : SegState) : Prop :=
  s.liveTimers = if s.handleLive then 1 else 0

theorem segInv_init : segInv SegState.init := rfl

theorem segInv_step (s : SegState) (e : AudioEvent) (h : segInv s) :
    segInv (segStep s e).1 := by
  cases e with
  | turn t eot =>
    simp only [segStep, onTurn]
    split
    · by_cases hL : s.handleLive <;> cases eot <;>
        simp_all [segInv, cancelPendingTimer, scheduleTranscriptProcessing,
          processTranscriptImmediately] <;> split <;> simp_all
    · exact h
  | timerFire =>
    simp only [segStep]
    split
    · exact h
    · by_cases hL : s.handleLive
      · simp_all [segInv, fireTimer, processTranscriptImmediately]
        split <;> simp_all
      · simp_all [segInv, fireTimer, processTranscriptImmediately]

theorem segInv_run (s : SegState) (es : List AudioEvent) (h : segInv s) :
    segInv (runSeg s es).1 := by
  induction es generalizing s with
  | nil => exact h
  | cons e es ih =>
    simp only [runSeg]
    exact ih _ (segInv_step s e h)

/-- C2: Single-timer invariant of the segmenter — across every sequence of
`on_turn` events and timer firings starting from a fresh handler, at most
one debounce timer is armed at any instant; moreover, at every reachable
state, the cancel step a non-empty update performs (`cancelPendingTimer`
inside `onTurn`, right after storing the new text) leaves zero armed
timers, so the subsequent immediate finalization or re-arming never
coexists with a previously pending timer. -/
theorem single_timer_invariant (es : List AudioEvent) :
    ((runSeg SegState.init es).1).liveTimers ≤ 1 ∧
    ∀ c : String,
      (cancelPendingTimer
        { (runSeg SegState.init es).1 with
          current_transcript := c }).liveTimers = 0 := by
  have h := segInv_run SegState.init es segInv_init
  unfold segInv at h
  constructor
  · rw [h]
    split <;> simp
  · intro c
    unfold cancelPendingTimer
    by_cases hL : ((runSeg SegState.init es).1).handleLive <;> simp_all

/-- C1: Debounce idempotence of the segmenter — from any state whose last
dispatched text differs from the (stripped) text `t`, a sequence ending in
two consecutive finalizations of `t` (explicit end-of-turn twice, or a
timer-driven finalization followed by an explicit one) forwards exactly one
transcript downstream, namely `pyStrip t`; and finalizing when the current
text equals the last dispatched text is a no-op (state unchanged, nothing
emitted). -/
theorem debounce_idempotence (s : SegState) (t : String)
    (ht : pyStrip t ≠ "") (hl : s.last_processed_transcript ≠ pyStrip t) :
    (runSeg s [.turn t true, .turn t true]).2 = [pyStrip t] ∧
    (runSeg s [.turn t false, .timerFire, .turn t true]).2 = [pyStrip t] ∧
    (∀ s' : SegState, s'.current_transcript = s'.last_processed_transcript →
      processTranscriptImmediately s' = (s', [])) := by
  refine ⟨?_, ?_, ?_⟩
  · by_cases hL : s.handleLive <;>
      simp_all [runSeg, segStep, onTurn, cancelPendingTimer,
        processTranscriptImmediately, Ne.symm hl]
  · by_cases hL : s.handleLive <;>
      simp_all [runSeg, segStep, onTurn, cancelPendingTimer,
        scheduleTranscriptProcessing, fireTimer,
        processTranscriptImmediately, Ne.symm hl]
  · intro s' h
    simp [processTranscriptImmediately, h]

/-- Witness for `debounce_idempotence` at a concrete input. -/
theorem debounce_idempotence_witness :
    (runSeg SegState.init
      [.turn " how do APIs work " true, .turn "how do APIs work" true]).2 =
      ["how do APIs work"] := by
  have h := debounce_idempotence SegState.init " how do APIs work "
    (by decide) (by decide)
  exact h.1

/-- C3: Freeze gate — for an utterance of either kind, if `is_frozen` is
true when the dispatch body starts running (the flag is a field of the
run's configuration, read at the start of each body, not captured at
submission), the dispatch performs no external service call and emits no
sink event. -/
theorem freeze_gate (cfg : GeminiConfig) (hf : cfg.is_frozen = true)
    (transcript image_path : String)
    (classifyRes answerRes : Except String String)
    (loadRes : Except String Unit) (visionRes : Except String String) :
    processTranscript cfg transcript classifyRes answerRes = ([], []) ∧
    processImage cfg image_path loadRes visionRes = ([], []) := by
  constructor <;> simp [processTranscript, processImage, hf]

/-- Witness for `freeze_gate` at a concrete input. -/
theorem freeze_gate_witness :
    processTranscript ⟨true, true, true, true, true, true⟩ "q"
        (Except.ok "Yes") (Except.ok "a") = ([], []) ∧
    processImage ⟨true, true, true, true, true, true⟩ "p.png"
        (Except.ok ()) (Except.ok "C") = ([], []) :=
  freeze_gate ⟨true, true, true, true, true, true⟩ rfl "q" "p.png"
    (Except.ok "Yes") (Except.ok "a") (Except.ok ()) (Except.ok "C")

/-- C4: Classification gate — relevance of a Text utterance is decided by a
case-sensitive substring test of the literal token `"Yes"` against the
stripped classifier response (`"Yes" in classification_response.text.strip()`);
when the stripped response lacks that substring, the dispatch emits no sink
event at all (no clear-transcript signal, no answer text) and the only
external call it can have made is the classification one, so the
answer-generation service is never invoked. -/
theorem classification_gate (cfg : GeminiConfig) (transcript resp : String)
    (answerRes : Except String String)
    (hno : pyIn "Yes" (pyStrip resp) = false) :
    (processTranscript cfg transcript (Except.ok resp) answerRes).2 = [] ∧
    ∀ c ∈ (processTranscript cfg transcript (Except.ok resp) answerRes).1,
      c = ServiceCall.classify transcript := by
  by_cases hf : cfg.is_frozen <;> by_cases hm : cfg.modelAvailable <;>
    simp [processTranscript, hf, hm, hno]

/-- Witness for `classification_gate` at a concrete input
(classifier answers `"No"` to a non-technical question). -/
theorem classification_gate_witness :
    (processTranscript ⟨false, true, true, true, true, true⟩
        "whats the weather today" (Except.ok "No") (Except.ok "a")).2 = [] ∧
    ∀ c ∈ (processTranscript ⟨false, true, true, true, true, true⟩
        "whats the weather today" (Except.ok "No") (Except.ok "a")).1,
      c = ServiceCall.classify "whats the weather today" :=
  classification_gate ⟨false, true, true, true, true, true⟩
    "whats the weather today" "No" (Except.ok "a") (by decide)

/-- C8: Service-error asymmetry — an exception from an external service
call never escapes a dispatch body (both embedded bodies are total
functions of the `Except`-valued call outcomes, mirroring the source's
catch-all `try/except`); a failing classification emits nothing, a failing
answer stage adds nothing to the sink beyond the clear signal already sent
before it (no answer text, no error message), while on the image path a
failure of either the image load or the vision call is converted into the
user-visible sink message `"Error processing image: ..."`. -/
theorem service_error_asymmetry (cfg : GeminiConfig)
    (transcript image_path e resp : String)
    (answerRes visionRes : Except String String)
    (hfz : cfg.is_frozen = false) (hm : cfg.modelAvailable = true)
    (hv : cfg.visionModelAvailable = true) (hcb : cfg.on_response = true)
    (hyes : pyIn "Yes" (pyStrip resp) = true) :
    (processTranscript cfg transcript (Except.error e) answerRes).2 = [] ∧
    (processTranscript cfg transcript (Except.ok resp) (Except.error e)).2 =
      (if cfg.on_clear_transcription then [SinkEvent.clearTranscript]
       else []) ∧
    (processImage cfg image_path (Except.error e) visionRes).2 =
      [SinkEvent.response ("Error processing image: " ++ e)] ∧
    (processImage cfg image_path (Except.ok ()) (Except.error e)).2 =
      [SinkEvent.response ("Error processing image: " ++ e)] := by
  refine ⟨?_, ?_, ?_, ?_⟩ <;>
    simp [processTranscript, processImage, hfz, hm, hv, hcb, hyes]

/-- Witness for `service_error_asymmetry` at a concrete input. -/
theorem service_error_asymmetry_witness :
    (processTranscript ⟨false, true, true, true, true, true⟩ "q"
        (Except.error "boom") (Except.ok "a")).2 = [] ∧
    (processTranscript ⟨false, true, true, true, true, true⟩ "q"
        (Except.ok "Yes") (Except.error "boom")).2 =
      (if (true : Bool) then [SinkEvent.clearTranscript] else []) ∧
    (processImage ⟨false, true, true, true, true, true⟩ "p.png"
        (Except.error "boom") (Except.ok "C")).2 =
      [SinkEvent.response ("Error processing image: " ++ "boom")] ∧
    (processImage ⟨false, true, true, true, true, true⟩ "p.png"
        (Except.ok ()) (Except.error "boom")).2 =
      [SinkEvent.response ("Error processing image: " ++ "boom")] :=
  service_error_asymmetry ⟨false, true, true, true, true, true⟩
    "q" "p.png" "boom" "Yes" (Except.ok "a") (Except.ok "C")
    rfl rfl rfl rfl (by decide)

/-- Scanning from an already-selected blob yields a blob of the list (or
the start blob) whose key dominates the start blob and every list
element. -/
theorem foldl_selStep_spec (bs : List Blob) (a : Blob) :
    ∃ m, bs.foldl selStep (some a) = some m ∧ (m = a ∨ m ∈ bs) ∧
      blobSortKey a ≤ blobSortKey m ∧
      ∀ b ∈ bs, blobSortKey b ≤ blobSortKey m := by
  induction bs generalizing a with
  | nil => exact ⟨a, rfl, Or.inl rfl, le_refl _, by simp⟩
  | cons b bs ih =>
    by_cases hab : blobSortKey a < blobSortKey b
    · obtain ⟨m, hfold, hmem, hle, hall⟩ := ih b
      refine ⟨m, ?_, ?_, le_of_lt (lt_of_lt_of_le hab hle), ?_⟩
      · simpa [selStep, hab] using hfold
      · rcases hmem with h | h
        · exact Or.inr (by simp [h])
        · exact Or.inr (by simp [h])
      · intro b' hb'
        rcases List.mem_cons.mp hb' with h | h
        · exact h ▸ hle
        · exact hall b' h
    · obtain ⟨m, hfold, hmem, hle, hall⟩ := ih a
      refine ⟨m, ?_, ?_, hle, ?_⟩
      · simpa [selStep, hab] using hfold
      · rcases hmem with h | h
        · exact Or.inl h
        · exact Or.inr (by simp [h])
      · intro b' hb'
        rcases List.mem_cons.mp hb' with h | h
        · exact h ▸ le_trans (le_of_not_lt hab) hle
        · exact hall b' h

/-- `selectLatest` returns a member of the list whose key dominates every
member. -/
theorem selectLatest_spec (bs : List Blob) (m : Blob)
    (h : selectLatest bs = some m) :
    m ∈ bs ∧ ∀ b ∈ bs, blobSortKey b ≤ blobSortKey m := by
  cases bs with
  | nil => simp [selectLatest] at h
  | cons b bs =>
    obtain ⟨m', hfold, hmem, hle, hall⟩ := foldl_selStep_spec bs b
    have : selectLatest (b :: bs) = some m' := by
      simpa [selectLatest, selStep] using hfold
    rw [this] at h
    obtain rfl : m' = m := by injection h
    refine ⟨?_, ?_⟩
    · rcases hmem with h' | h'
      · simp [h']
      · simp [h']
    · intro b' hb'
      rcases List.mem_cons.mp hb' with h' | h'
      · exact h' ▸ hle
      · exact hall b' h'

/-- C7: Newest-only selection — in every poll cycle at most one object is
downloaded, the blob considered is the one selected by the descending sort
on the creation metadata of the PNG candidates (`selectLatest`, a maximal
element of the PNG-filtered listing), and anything downloaded in that cycle
is exactly that blob's basename, so no other object is evaluated that
cycle. -/
theorem newest_only (st : ListenerState) (blobs : List Blob)
    (downloadOk : Bool) (sel : Blob)
    (hsel : selectLatest (blobs.filter fun b => isPngName b.name) =
      some sel) :
    (checkForNewPngs st blobs downloadOk).downloaded.length ≤ 1 ∧
    sel ∈ blobs.filter (fun b => isPngName b.name) ∧
    (∀ b ∈ blobs.filter (fun b => isPngName b.name),
      blobSortKey b ≤ blobSortKey sel) ∧
    ∀ name ∈ (checkForNewPngs st blobs downloadOk).downloaded,
      name = basenameOf sel.name := by
  obtain ⟨hmem, hmax⟩ := selectLatest_spec _ _ hsel
  refine ⟨?_, hmem, hmax, ?_⟩ <;>
  · simp only [checkForNewPngs]
    rw [hsel]
    cases h1 : createdTimeFromName (basenameOf sel.name)
    · simp [h1]
    · simp only [h1, ingestLatest]
      repeat' split
      all_goals simp

/-- Witness for `newest_only` at a concrete input. -/
theorem newest_only_witness :
    ((checkForNewPngs ⟨[], none, "downloaded_images", true⟩
        [⟨"shot_20250101_090000.png", some 7, 42⟩] true).downloaded.length
      ≤ 1) ∧
    (⟨"shot_20250101_090000.png", some 7, 42⟩ : Blob) ∈
      List.filter (fun b => isPngName b.name)
        [⟨"shot_20250101_090000.png", some 7, 42⟩] ∧
    (∀ b ∈ List.filter (fun b => isPngName b.name)
        [(⟨"shot_20250101_090000.png", some 7, 42⟩ : Blob)],
      blobSortKey b ≤ blobSortKey ⟨"shot_20250101_090000.png", some 7, 42⟩) ∧
    ∀ name ∈ (checkForNewPngs ⟨[], none, "downloaded_images", true⟩
        [⟨"shot_20250101_090000.png", some 7, 42⟩] true).downloaded,
      name = basenameOf "shot_20250101_090000.png" :=
  newest_only ⟨[], none, "downloaded_images", true⟩
    [⟨"shot_20250101_090000.png", some 7, 42⟩] true
    ⟨"shot_20250101_090000.png", some 7, 42⟩ (by decide)

/-- The cycle past the parse and the seen-set check, as an equation: what
remains is exactly the cutoff comparison of the name-derived timestamp
followed by the ingestion tail. -/
theorem checkForNewPngs_eq_of_sel (st : ListenerState) (blobs : List Blob)
    (downloadOk : Bool) (latest : Blob) (ct : PyDateTime)
    (hsel : selectLatest (blobs.filter fun b => isPngName b.name) =
      some latest)
    (hp : createdTimeFromName (basenameOf latest.name) = some ct)
    (hmem : basenameOf latest.name ∉ st.seen_files) :
    checkForNewPngs st blobs downloadOk =
      (match st.start_time with
       | some cutoff =>
         if ct.toKey < cutoff.toKey then
           { state := st, new_files := [], downloaded := [], callbacks := [] }
         else ingestLatest st latest (basenameOf latest.name) downloadOk
       | none => ingestLatest st latest (basenameOf latest.name) downloadOk)
    := by
  simp only [checkForNewPngs]
  rw [hsel]
  simp [hp, hmem]

/-- Every poll cycle either changes nothing (empty result, state as before)
or ingests exactly the selected blob: an unseen basename with a successful
download, via `ingestLatest`. -/
theorem checkForNewPngs_cases (st : ListenerState) (blobs : List Blob)
    (downloadOk : Bool) :
    checkForNewPngs st blobs downloadOk =
      { state := st, new_files := [], downloaded := [], callbacks := [] } ∨
    ∃ latest,
      selectLatest (blobs.filter fun b => isPngName b.name) = some latest ∧
      basenameOf latest.name ∉ st.seen_files ∧
      downloadOk = true ∧
      checkForNewPngs st blobs downloadOk =
        ingestLatest st latest (basenameOf latest.name) true := by
  cases hsel : selectLatest (blobs.filter fun b => isPngName b.name) with
  | none =>
    refine Or.inl ?_
    simp only [checkForNewPngs]
    rw [hsel]
  | some latest =>
    cases hp : createdTimeFromName (basenameOf latest.name) with
    | none =>
      refine Or.inl ?_
      simp only [checkForNewPngs]
      rw [hsel]
      simp [hp]
    | some ct =>
      by_cases hmem : basenameOf latest.name ∈ st.seen_files
      · refine Or.inl ?_
        simp only [checkForNewPngs]
        rw [hsel]
        simp [hp, hmem]
      · have heq := checkForNewPngs_eq_of_sel st blobs downloadOk latest ct
          hsel hp hmem
        cases hdl : downloadOk with
        | false =>
          refine Or.inl ?_
          rw [hdl] at heq
          rw [heq]
          cases st.start_time with
          | none => simp [ingestLatest]
          | some cutoff => split <;> simp [ingestLatest]
        | true =>
          rw [hdl] at heq
          split at heq
          · split at heq
            · exact Or.inl heq
            · exact Or.inr ⟨latest, rfl, hmem, rfl, heq⟩
          · exact Or.inr ⟨latest, rfl, hmem, rfl, heq⟩

/-- C5: SeenRegistry invariant — in every poll cycle (with the new-image
callback registered, as the application always does), either nothing is
added to the seen set and nothing is downloaded, returned or handed to the
callback, or a single previously-unseen name is added to the seen set and
exactly that object is downloaded, returned in `new_files` and handed to
the callback; in particular a name already in the seen set never produces
another emitted file. -/
theorem seen_registry_invariant (st : ListenerState) (blobs : List Blob)
    (downloadOk : Bool) (hcb : st.hasCallback = true) :
    (((checkForNewPngs st blobs downloadOk).state.seen_files =
        st.seen_files ∧
      (checkForNewPngs st blobs downloadOk).downloaded = [] ∧
      (checkForNewPngs st blobs downloadOk).callbacks = [] ∧
      (checkForNewPngs st blobs downloadOk).new_files = []) ∨
     (∃ name sz, name ∉ st.seen_files ∧
      (checkForNewPngs st blobs downloadOk).state.seen_files =
        name :: st.seen_files ∧
      (checkForNewPngs st blobs downloadOk).downloaded = [name] ∧
      (checkForNewPngs st blobs downloadOk).callbacks =
        [st.download_dir ++ "/" ++ name] ∧
      (checkForNewPngs st blobs downloadOk).new_files =
        [⟨name, st.download_dir ++ "/" ++ name, sz⟩])) ∧
    ∀ fi ∈ (checkForNewPngs st blobs downloadOk).new_files,
      fi.name ∉ st.seen_files := by
  rcases checkForNewPngs_cases st blobs downloadOk with
    h | ⟨latest, _, hmem, _, h⟩
  · rw [h]
    exact ⟨Or.inl ⟨rfl, rfl, rfl, rfl⟩, by simp⟩
  · rw [h]
    constructor
    · refine Or.inr
        ⟨basenameOf latest.name, latest.size, hmem, ?_, ?_, ?_, ?_⟩ <;>
        simp [ingestLatest, hcb]
    · intro fi hfi
      have hfi' : fi = ⟨basenameOf latest.name,
          st.download_dir ++ "/" ++ basenameOf latest.name, latest.size⟩ := by
        simpa [ingestLatest] using hfi
      rw [hfi']
      exact hmem

/-- Witness for `seen_registry_invariant` at a concrete input. -/
theorem seen_registry_invariant_witness :
    (((checkForNewPngs ⟨[], none, "d", true⟩
        [⟨"shot_20250101_090000.png", some 7, 42⟩] true).state.seen_files =
        ([] : List String) ∧
      (checkForNewPngs ⟨[], none, "d", true⟩
        [⟨"shot_20250101_090000.png", some 7, 42⟩] true).downloaded = [] ∧
      (checkForNewPngs ⟨[], none, "d", true⟩
        [⟨"shot_20250101_090000.png", some 7, 42⟩] true).callbacks = [] ∧
      (checkForNewPngs ⟨[], none, "d", true⟩
        [⟨"shot_20250101_090000.png", some 7, 42⟩] true).new_files = []) ∨
     (∃ name sz, name ∉ ([] : List String) ∧
      (checkForNewPngs ⟨[], none, "d", true⟩
        [⟨"shot_20250101_090000.png", some 7, 42⟩] true).state.seen_files =
        name :: [] ∧
      (checkForNewPngs ⟨[], none, "d", true⟩
        [⟨"shot_20250101_090000.png", some 7, 42⟩] true).downloaded =
        [name] ∧
      (checkForNewPngs ⟨[], none, "d", true⟩
        [⟨"shot_20250101_090000.png", some 7, 42⟩] true).callbacks =
        ["d" ++ "/" ++ name] ∧
      (checkForNewPngs ⟨[], none, "d", true⟩
        [⟨"shot_20250101_090000.png", some 7, 42⟩] true).new_files =
        [⟨name, "d" ++ "/" ++ name, sz⟩])) ∧
    ∀ fi ∈ (checkForNewPngs ⟨[], none, "d", true⟩
        [⟨"shot_20250101_090000.png", some 7, 42⟩] true).new_files,
      fi.name ∉ ([] : List String) :=
  seen_registry_invariant ⟨[], none, "d", true⟩
    [⟨"shot_20250101_090000.png", some 7, 42⟩] true rfl

/-- C6: Cutoff filter — when a cutoff time is configured and the derived
creation time of the selected (newest) PNG candidate is strictly earlier
than it, the cycle downloads nothing, emits nothing, and leaves the seen
set (indeed the whole listener state) unchanged; consequently any number of
further cycles against the same listing do the same, so the object is
re-evaluated rather than remembered. -/
theorem cutoff_filter (st : ListenerState) (blobs : List Blob)
    (downloadOk : Bool) (sel : Blob) (cutoff ct : PyDateTime)
    (hcut : st.start_time = some cutoff)
    (hsel : selectLatest (blobs.filter fun b => isPngName b.name) = some sel)
    (hp : createdTimeFromName (basenameOf sel.name) = some ct)
    (hlt : ct.toKey < cutoff.toKey) :
    checkForNewPngs st blobs downloadOk =
      { state := st, new_files := [], downloaded := [], callbacks := [] } ∧
    ∀ n, runCycles st blobs downloadOk n = (st, []) := by
  have h1 : checkForNewPngs st blobs downloadOk =
      { state := st, new_files := [], downloaded := [], callbacks := [] } := by
    simp only [checkForNewPngs]
    rw [hsel]
    by_cases hmem : basenameOf sel.name ∈ st.seen_files <;>
      simp [hp, hcut, hmem, hlt]
  refine ⟨h1, ?_⟩
  intro n
  induction n with
  | zero => rfl
  | succ n ih => simp [runCycles, h1, ih]

/-- Witness for `cutoff_filter` at a concrete input: the newest PNG is
named with a stamp of 2025-01-01 09:00:00 while the cutoff is
2025-06-01 00:00:00. -/
theorem cutoff_filter_witness :
    checkForNewPngs ⟨[], some ⟨2025, 6, 1, 0, 0, 0⟩, "d", true⟩
        [⟨"shot_20250101_090000.png", some 7, 42⟩] true =
      { state := ⟨[], some ⟨2025, 6, 1, 0, 0, 0⟩, "d", true⟩,
        new_files := [], downloaded := [], callbacks := [] } ∧
    ∀ n, runCycles ⟨[], some ⟨2025, 6, 1, 0, 0, 0⟩, "d", true⟩
        [⟨"shot_20250101_090000.png", some 7, 42⟩] true n =
      (⟨[], some ⟨2025, 6, 1, 0, 0, 0⟩, "d", true⟩, []) :=
  cutoff_filter ⟨[], some ⟨2025, 6, 1, 0, 0, 0⟩, "d", true⟩
    [⟨"shot_20250101_090000.png", some 7, 42⟩] true
    ⟨"shot_20250101_090000.png", some 7, 42⟩
    ⟨2025, 6, 1, 0, 0, 0⟩ ⟨2025, 1, 1, 9, 0, 0⟩
    rfl (by decide) (by decide) (by decide)

/-- C10: A newest PNG whose basename does not yield a parseable embedded
timestamp (fewer than three `_`-separated segments, or a stamp `strptime`
rejects) makes lines 90–91 raise before the seen-set check is reached; the
outer `except` catches it, so the cycle returns the empty list with the
seen set unchanged, nothing downloaded and no callback invoked — with the
same outcome for every choice of seen set (the check is never reached) and
for every number of repeated cycles while that object stays newest. -/
theorem malformed_name_skip (st : ListenerState) (blobs : List Blob)
    (downloadOk : Bool) (sel : Blob)
    (hsel : selectLatest (blobs.filter fun b => isPngName b.name) = some sel)
    (hp : createdTimeFromName (basenameOf sel.name) = none) :
    checkForNewPngs st blobs downloadOk =
      { state := st, new_files := [], downloaded := [], callbacks := [] } ∧
    (∀ seen' : List String,
      checkForNewPngs { st with seen_files := seen' } blobs downloadOk =
        { state := { st with seen_files := seen' },
          new_files := [], downloaded := [], callbacks := [] }) ∧
    ∀ n, runCycles st blobs downloadOk n = (st, []) := by
  have h1 : ∀ s : ListenerState, checkForNewPngs s blobs downloadOk =
      { state := s, new_files := [], downloaded := [], callbacks := [] } := by
    intro s
    simp only [checkForNewPngs]
    rw [hsel]
    simp [hp]
  refine ⟨h1 st, fun seen' => h1 _, ?_⟩
  intro n
  induction n with
  | zero => rfl
  | succ n ih => simp [runCycles, h1, ih]

/-- Witness for `malformed_name_skip` at a concrete input (`shot.png` has
no embedded timestamp). -/
theorem malformed_name_skip_witness :
    checkForNewPngs ⟨["x"], none, "d", true⟩ [⟨"shot.png", some 7, 42⟩]
        true =
      { state := ⟨["x"], none, "d", true⟩,
        new_files := [], downloaded := [], callbacks := [] } ∧
    (∀ seen' : List String,
      checkForNewPngs ⟨seen', none, "d", true⟩ [⟨"shot.png", some 7, 42⟩]
          true =
        { state := ⟨seen', none, "d", true⟩,
          new_files := [], downloaded := [], callbacks := [] }) ∧
    ∀ n, runCycles ⟨["x"], none, "d", true⟩ [⟨"shot.png", some 7, 42⟩]
        true n =
      (⟨["x"], none, "d", true⟩, []) :=
  malformed_name_skip ⟨["x"], none, "d", true⟩ [⟨"shot.png", some 7, 42⟩]
    true ⟨"shot.png", some 7, 42⟩ (by decide) (by decide)

/-- C9 counterexample: the claim that the cutoff timestamp is derived from
the object's creation metadata combined with the name-embedded stamp is
false — two listings that differ only in the newest object's creation
metadata produce identical cycle results, and an object named
`shot_20250101_090000.png` is skipped against a 2025-06-01 cutoff even when
its store metadata is arbitrarily large, because the compared timestamp is
computed from the name alone (lines 90–91 never read `time_created`). -/
theorem cutoff_timestamp_metadata_counterexample :
    (some 99999999999 : Option Nat) ≠ some 1 ∧
    checkForNewPngs ⟨[], some ⟨2025, 6, 1, 0, 0, 0⟩, "d", true⟩
        [⟨"shot_20250101_090000.png", some 99999999999, 42⟩] true =
      checkForNewPngs ⟨[], some ⟨2025, 6, 1, 0, 0, 0⟩, "d", true⟩
        [⟨"shot_20250101_090000.png", some 1, 42⟩] true ∧
    (checkForNewPngs ⟨[], some ⟨2025, 6, 1, 0, 0, 0⟩, "d", true⟩
        [⟨"shot_20250101_090000.png", some 99999999999, 42⟩]
        true).new_files = [] := by
  refine ⟨by decide, by decide, by decide⟩

/-- C9 (amended): Timestamp derivation — the creation timestamp used for
the cutoff comparison is derived solely from the timestamp embedded in the
candidate's basename (second and third `_`-separated segments, the third
truncated to six characters, parsed as `YYYYMMDD_HHMMSS` in UTC); the
object's own creation metadata plays no role in it (it is used only to
select the newest candidate).  Concretely: the cycle reduces to comparing
exactly the name-derived timestamp `ct` against the cutoff, and the
name-derivation yields the same `ct` for every value of the creation
metadata and size. -/
theorem cutoff_timestamp_from_name_only (st : ListenerState)
    (blobs : List Blob) (downloadOk : Bool) (sel : Blob)
    (cutoff ct : PyDateTime)
    (hcut : st.start_time = some cutoff)
    (hsel : selectLatest (blobs.filter fun b => isPngName b.name) = some sel)
    (hmem : basenameOf sel.name ∉ st.seen_files)
    (hp : createdTimeFromName (basenameOf sel.name) = some ct) :
    checkForNewPngs st blobs downloadOk =
      (if ct.toKey < cutoff.toKey then
        { state := st, new_files := [], downloaded := [], callbacks := [] }
       else ingestLatest st sel (basenameOf sel.name) downloadOk) ∧
    ∀ (tc : Option Nat) (sz : Nat),
      createdTimeFromName (basenameOf (Blob.mk sel.name tc sz).name) =
        some ct := by
  constructor
  · have heq := checkForNewPngs_eq_of_sel st blobs downloadOk sel ct
      hsel hp hmem
    rw [heq, hcut]
  · intro tc sz
    exact hp

/-- Witness for `cutoff_timestamp_from_name_only` at a concrete input. -/
theorem cutoff_timestamp_from_name_only_witness :
    checkForNewPngs ⟨[], some ⟨2025, 6, 1, 0, 0, 0⟩, "d", true⟩
        [⟨"shot_20250101_090000.png", some 7, 42⟩] true =
      (if (⟨2025, 1, 1, 9, 0, 0⟩ : PyDateTime).toKey <
          (⟨2025, 6, 1, 0, 0, 0⟩ : PyDateTime).toKey then
        { state := ⟨[], some ⟨2025, 6, 1, 0, 0, 0⟩, "d", true⟩,
          new_files := [], downloaded := [], callbacks := [] }
       else ingestLatest ⟨[], some ⟨2025, 6, 1, 0, 0, 0⟩, "d", true⟩
        ⟨"shot_20250101_090000.png", some 7, 42⟩
        (basenameOf "shot_20250101_090000.png") true) ∧
    ∀ (tc : Option Nat) (sz : Nat),
      createdTimeFromName
          (basenameOf (Blob.mk "shot_20250101_090000.png" tc sz).name) =
        some ⟨2025, 1, 1, 9, 0, 0⟩ :=
  cutoff_timestamp_from_name_only ⟨[], some ⟨2025, 6, 1, 0, 0, 0⟩, "d", true⟩
    [⟨"shot_20250101_090000.png", some 7, 42⟩] true
    ⟨"shot_20250101_090000.png", some 7, 42⟩
    ⟨2025, 6, 1, 0, 0, 0⟩ ⟨2025, 1, 1, 9, 0, 0⟩
    rfl (by decide) (by decide) (by decide)

end InterviewAgent
